import Mathlib

/-!
Shallow embedding of the S3 bucket-to-bucket synchronizer in `src/main.py`.

The remote object store is modelled as an association list from keys to
stored objects.  Remote calls (`head_object`, `get_object`,
`upload_fileobj`) are modelled as functions over that store, with
per-key fault injectors standing for the `ClientError`s the real calls
may raise.  `copy_object`, the statistics recording of `sync`, and the
signal handler are translated line by line from the source.
-/

namespace S3Rsync

/-- One entry of a `list_objects_v2` page: the object key and its size
(`obj['Key']`, `obj['Size']` in `main.py`). -/
structure ObjectDescriptor where
  key : String
  size : Nat
deriving DecidableEq, Repr

/-- An object as stored in a bucket: its `ContentLength`, recorded
`ContentType`, user `Metadata` and body bytes. -/
structure StoredObject where
  size : Nat
  contentType : Option String
  metadata : List (String × String)
  body : List Nat
deriving DecidableEq, Repr

/-- A bucket: an association list from keys to stored objects. -/
abbrev Bucket := List (String × StoredObject)

/-- Look a key up in a bucket. -/
def lookupObj : Bucket → String → Option StoredObject
  | [], _ => none
  | (k, o) :: b, key => if k = key then some o else lookupObj b key

/-- Store an object under a key, replacing any previous object there. -/
def putObj : Bucket → String → StoredObject → Bucket
  | [], key, o => [(key, o)]
  | (k, p) :: b, key, o =>
      if k = key then (k, o) :: b else (k, p) :: putObj b key o

/-- The two S3 clients plus fault injectors: `headFault`, `getFault` and
`putFault` give, per key, the `ClientError` code the corresponding remote
call raises, or `none` when the call succeeds normally. -/
structure S3World where
  source : Bucket
  target : Bucket
  headFault : String → Option String
  getFault : String → Option String
  putFault : String → Option String

/-- A fault injector under which every call succeeds. -/
def noFault : String → Option String := fun _ => none

/-- `target_client.head_object`: the injected fault if any, otherwise the
stored object, otherwise a `404` error. -/
def head_object (w : S3World) (key : String) : Except String StoredObject :=
  match w.headFault key with
  | some code => Except.error code
  | none =>
      match lookupObj w.target key with
      | some o => Except.ok o
      | none => Except.error "404"

/-- `source_client.get_object`: the injected fault if any, otherwise the
stored object, otherwise a `NoSuchKey` error. -/
def get_object (w : S3World) (key : String) : Except String StoredObject :=
  match w.getFault key with
  | some code => Except.error code
  | none =>
      match lookupObj w.source key with
      | some o => Except.ok o
      | none => Except.error "NoSuchKey"

/-- `target_client.upload_fileobj`: the injected fault if any, otherwise
the updated target bucket. -/
def put_object (w : S3World) (key : String) (o : StoredObject) :
    Except String Bucket :=
  match w.putFault key with
  | some code => Except.error code
  | none => Except.ok (putObj w.target key o)

/-- `S3Syncer.check_target_object` (`main.py` lines 168-191): on success
return `some ContentLength`; on a `ClientError` whose code is `404`
return `none` (file does not exist); re-raise any other error. -/
def check_target_object (headResult : Except String StoredObject) :
    Except String (Option Nat) :=
  match headResult with
  | Except.ok r => Except.ok (some r.size)
  | Except.error code =>
      if code = "404" then Except.ok none else Except.error code

/-- `CHUNK_SIZE = 8 * 1024 * 1024` (`main.py` line 30). -/
def CHUNK_SIZE : Nat := 8 * 1024 * 1024

/-- `response['Body'].iter_chunks(chunk_size=cs)`: split a body into
successive chunks of at most `cs` bytes. -/
def chunks (cs : Nat) : List Nat → List (List Nat)
  | [] => []
  | a :: l => ((a :: l).take cs) :: chunks cs (l.drop (cs - 1))
termination_by l => l.length
decreasing_by
  simp only [List.length_drop, List.length_cons]
  omega

/-- The loop body `file_content.write(chunk)` iterated over all chunks:
append each chunk to the `BytesIO` buffer. -/
def write_chunks (buf : List Nat) : List (List Nat) → List Nat
  | [] => buf
  | c :: cs => write_chunks (buf ++ c) cs

/-- `main.py` lines 232-238: the `BytesIO` buffer after the read loop,
having written every `CHUNK_SIZE`-sized chunk of the body into it. -/
def read_body_buffered (body : List Nat) : List Nat :=
  write_chunks [] (chunks CHUNK_SIZE body)

/-- MIME-type resolution in `copy_object` (`main.py` lines 240-248):
prefer the source content type when truthy and not
`binary/octet-stream`; otherwise `mimetypes.guess_type` on the key
(modelled by the extension table `guessType`); otherwise
`application/octet-stream`. -/
def resolve_content_type (guessType : String → Option String)
    (sourceCT : Option String) (key : String) : String :=
  match sourceCT with
  | some ct =>
      if ct ≠ "" ∧ ct ≠ "binary/octet-stream" then ct
      else
        match guessType key with
        | some t => t
        | none => "application/octet-stream"
  | none =>
      match guessType key with
      | some t => t
      | none => "application/octet-stream"

/-- The terminal statuses returned by `copy_object`. -/
inductive TransferStatus where
  | copied
  | skipped
  | interrupted
  | error (reason : String)
deriving DecidableEq, Repr

/-- A remote I/O call performed during one transfer. -/
inductive RemoteOp where
  | head (key : String)
  | get (key : String)
  | put (key : String)
deriving DecidableEq, Repr

/-- What one `copy_object` invocation produced: its status, the target
bucket afterwards, and the remote calls it performed, in order. -/
structure TransferResult where
  status : TransferStatus
  target : Bucket
  ops : List RemoteOp
deriving Repr

/-- `S3Syncer.copy_object` (`main.py` lines 193-280): fast-return
`interrupted` when the flag is set; probe the target and skip when the
size matches; otherwise read the source body chunk-wise into a buffer,
resolve the content type, and upload body, content type and source
metadata; any `ClientError` becomes an `error` status carrying the key
and the error code. -/
def copy_object (guessType : String → Option String) (interrupted : Bool)
    (w : S3World) (obj : ObjectDescriptor) : TransferResult :=
  if interrupted then ⟨TransferStatus.interrupted, w.target, []⟩
  else
    let key := obj.key
    let source_size := obj.size
    match check_target_object (head_object w key) with
    | Except.error code =>
        ⟨TransferStatus.error (key ++ ": " ++ code), w.target,
          [RemoteOp.head key]⟩
    | Except.ok target_size =>
        if target_size = some source_size then
          ⟨TransferStatus.skipped, w.target, [RemoteOp.head key]⟩
        else
          match get_object w key with
          | Except.error code =>
              ⟨TransferStatus.error (key ++ ": " ++ code), w.target,
                [RemoteOp.head key, RemoteOp.get key]⟩
          | Except.ok resp =>
              let file_content := read_body_buffered resp.body
              let content_type :=
                resolve_content_type guessType resp.contentType key
              let uploaded : StoredObject :=
                { size := file_content.length
                  contentType := some content_type
                  metadata := resp.metadata
                  body := file_content }
              match put_object w key uploaded with
              | Except.error code =>
                  ⟨TransferStatus.error (key ++ ": " ++ code), w.target,
                    [RemoteOp.head key, RemoteOp.get key, RemoteOp.put key]⟩
              | Except.ok newTarget =>
                  ⟨TransferStatus.copied, newTarget,
                    [RemoteOp.head key, RemoteOp.get key, RemoteOp.put key]⟩

/-- The run statistics `self.stats` (`main.py` lines 115-120). -/
structure SyncStats where
  total : Nat
  copied : Nat
  skipped : Nat
  errors : Nat
deriving DecidableEq, Repr

/-- The fresh statistics at the start of a run, with `total` already set
(`main.py` line 319). -/
def initStats (total : Nat) : SyncStats :=
  { total := total, copied := 0, skipped := 0, errors := 0 }

/-- The result-dispatch of `sync` (`main.py` lines 344-352): one future
result increments exactly one of `copied`, `skipped`, `errors`, and an
`interrupted` result increments none of them. -/
def record (s : SyncStats) : TransferStatus → SyncStats
  | TransferStatus.copied => { s with copied := s.copied + 1 }
  | TransferStatus.skipped => { s with skipped := s.skipped + 1 }
  | TransferStatus.interrupted => s
  | TransferStatus.error _ => { s with errors := s.errors + 1 }

/-- The sum `copied + skipped + errors` of processed outcomes. -/
def statsSum (s : SyncStats) : Nat := s.copied + s.skipped + s.errors

/-- The statistics after recording a list of transfer results against a
fixed `total`. -/
def run_stats (total : Nat) (results : List TransferStatus) : SyncStats :=
  results.foldl record (initStats total)

/-- The dispatch loop of `sync` over a list of descriptors: each object
is handed to `copy_object` against the current target bucket, its
outcome is recorded, and the updated bucket is threaded to the next
transfer. -/
def run_transfers (guessType : String → Option String)
    (hf gf pf : String → Option String) (source : Bucket) :
    List ObjectDescriptor → Bucket → SyncStats → SyncStats × Bucket
  | [], target, s => (s, target)
  | d :: ds, target, s =>
      let r := copy_object guessType false ⟨source, target, hf, gf, pf⟩ d
      run_transfers guessType hf gf pf source ds r.target (record s r.status)

/-- `S3Syncer.sync` (`main.py` lines 313-319, 369): with an empty object
list, return before setting `total` and before `_print_summary`; the
boolean records whether the summary was printed. -/
def sync (guessType : String → Option String) (source target : Bucket)
    (objs : List ObjectDescriptor) : SyncStats × Bucket × Bool :=
  if objs.isEmpty then (initStats 0, target, false)
  else
    let st := run_transfers guessType noFault noFault noFault source objs
      target (initStats objs.length)
    (st.1, st.2, true)

/-- The effect of one delivered interrupt signal
(`main.py` lines 124-132). -/
inductive SignalEffect where
  | setFlag (newInterrupted : Bool)
  | exitProcess (code : Nat)
deriving DecidableEq, Repr

/-- The handler installed by `setup_signal_handlers`: the first signal
sets the `interrupted` flag; a further signal while the flag is set
exits the process with status 130. -/
def signal_handler (interrupted : Bool) : SignalEffect :=
  if interrupted then SignalEffect.exitProcess 130
  else SignalEffect.setFlag true

theorem lookupObj_putObj_self (b : Bucket) (k : String) (o : StoredObject) :
    lookupObj (putObj b k o) k = some o := by
  induction b with
  | nil => simp [putObj, lookupObj]
  | cons p b ih =>
      obtain ⟨k₁, o₁⟩ := p
      by_cases h : k₁ = k
      · subst h
        simp [putObj, lookupObj]
      · simp [putObj, lookupObj, h, ih]

theorem lookupObj_putObj_other (b : Bucket) (k k₂ : String) (o : StoredObject)
    (h : k ≠ k₂) : lookupObj (putObj b k o) k₂ = lookupObj b k₂ := by
  induction b with
  | nil => simp [putObj, lookupObj, h]
  | cons p b ih =>
      obtain ⟨k₁, o₁⟩ := p
      by_cases h₁ : k₁ = k
      · subst h₁
        simp [putObj, lookupObj, h]
      · simp [putObj, lookupObj, h₁, ih]

theorem chunks_flatten (cs : Nat) (hcs : 0 < cs) :
    ∀ l : List Nat, (chunks cs l).flatten = l
  | [] => by simp [chunks]
  | a :: l => by
      rw [chunks]
      simp only [List.flatten_cons]
      rw [chunks_flatten cs hcs (l.drop (cs - 1))]
      obtain ⟨n, rfl⟩ : ∃ n, cs = n + 1 := ⟨cs - 1, by omega⟩
      simp [List.take_append_drop]
termination_by l => l.length
decreasing_by
  simp only [List.length_drop, List.length_cons]
  omega

theorem chunks_sizes (cs : Nat) :
    ∀ l : List Nat, ∀ c ∈ chunks cs l, c.length ≤ cs
  | [] => by simp [chunks]
  | a :: l => by
      rw [chunks]
      intro c hc
      rcases List.mem_cons.mp hc with h | h
      · subst h
        simp [List.length_take_le]
      · exact chunks_sizes cs (l.drop (cs - 1)) c h
termination_by l => l.length
decreasing_by
  simp only [List.length_drop, List.length_cons]
  omega

theorem write_chunks_eq (cs : List (List Nat)) :
    ∀ buf : List Nat, write_chunks buf cs = buf ++ cs.flatten := by
  induction cs with
  | nil => intro buf; simp [write_chunks]
  | cons c cs ih =>
      intro buf
      rw [write_chunks, ih, List.flatten_cons, List.append_assoc]

/-- The read loop writes the entire body into the in-memory buffer. -/
theorem read_body_buffered_eq (body : List Nat) :
    read_body_buffered body = body := by
  rw [read_body_buffered, write_chunks_eq, List.nil_append,
    chunks_flatten CHUNK_SIZE (by norm_num [CHUNK_SIZE]) body]

theorem copy_object_of_interrupted (g : String → Option String) (w : S3World)
    (d : ObjectDescriptor) :
    copy_object g true w d = ⟨TransferStatus.interrupted, w.target, []⟩ := rfl

theorem copy_object_head_error (g : String → Option String) (w : S3World)
    (d : ObjectDescriptor) (c : String)
    (h : check_target_object (head_object w d.key) = Except.error c) :
    copy_object g false w d =
      ⟨TransferStatus.error (d.key ++ ": " ++ c), w.target,
        [RemoteOp.head d.key]⟩ := by
  simp [copy_object, h]

theorem copy_object_skip (g : String → Option String) (w : S3World)
    (d : ObjectDescriptor)
    (h : check_target_object (head_object w d.key) =
      Except.ok (some d.size)) :
    copy_object g false w d =
      ⟨TransferStatus.skipped, w.target, [RemoteOp.head d.key]⟩ := by
  simp [copy_object, h]

theorem copy_object_get_error (g : String → Option String) (w : S3World)
    (d : ObjectDescriptor) (ts : Option Nat) (c : String)
    (h₁ : check_target_object (head_object w d.key) = Except.ok ts)
    (h₂ : ts ≠ some d.size) (h₃ : get_object w d.key = Except.error c) :
    copy_object g false w d =
      ⟨TransferStatus.error (d.key ++ ": " ++ c), w.target,
        [RemoteOp.head d.key, RemoteOp.get d.key]⟩ := by
  simp [copy_object, h₁, h₂, h₃]

theorem copy_object_put_error (g : String → Option String) (w : S3World)
    (d : ObjectDescriptor) (ts : Option Nat) (resp : StoredObject)
    (c : String)
    (h₁ : check_target_object (head_object w d.key) = Except.ok ts)
    (h₂ : ts ≠ some d.size) (h₃ : get_object w d.key = Except.ok resp)
    (h₄ : w.putFault d.key = some c) :
    copy_object g false w d =
      ⟨TransferStatus.error (d.key ++ ": " ++ c), w.target,
        [RemoteOp.head d.key, RemoteOp.get d.key, RemoteOp.put d.key]⟩ := by
  simp [copy_object, h₁, h₂, h₃, put_object, h₄]

theorem copy_object_copied (g : String → Option String) (w : S3World)
    (d : ObjectDescriptor) (ts : Option Nat) (resp : StoredObject)
    (h₁ : check_target_object (head_object w d.key) = Except.ok ts)
    (h₂ : ts ≠ some d.size) (h₃ : get_object w d.key = Except.ok resp)
    (h₄ : w.putFault d.key = none) :
    copy_object g false w d =
      ⟨TransferStatus.copied,
        putObj w.target d.key
          { size := resp.body.length
            contentType :=
              some (resolve_content_type g resp.contentType d.key)
            metadata := resp.metadata
            body := resp.body },
        [RemoteOp.head d.key, RemoteOp.get d.key, RemoteOp.put d.key]⟩ := by
  simp [copy_object, h₁, h₂, h₃, put_object, h₄, read_body_buffered_eq]

theorem copy_object_not_interrupted (g : String → Option String)
    (w : S3World) (d : ObjectDescriptor) :
    (copy_object g false w d).status ≠ TransferStatus.interrupted := by
  cases hc : check_target_object (head_object w d.key) with
  | error c => rw [copy_object_head_error g w d c hc]; simp
  | ok ts =>
      by_cases hts : ts = some d.size
      · subst hts
        rw [copy_object_skip g w d hc]
        simp
      · cases hg : get_object w d.key with
        | error c => rw [copy_object_get_error g w d ts c hc hts hg]; simp
        | ok resp =>
            cases hp : w.putFault d.key with
            | none =>
                rw [copy_object_copied g w d ts resp hc hts hg hp]
                simp
            | some c =>
                rw [copy_object_put_error g w d ts resp c hc hts hg hp]
                simp

theorem copy_object_target_shape (g : String → Option String)
    (w : S3World) (d : ObjectDescriptor) :
    (copy_object g false w d).target = w.target ∨
      ∃ o, (copy_object g false w d).target = putObj w.target d.key o := by
  cases hc : check_target_object (head_object w d.key) with
  | error c => rw [copy_object_head_error g w d c hc]; left; rfl
  | ok ts =>
      by_cases hts : ts = some d.size
      · subst hts
        rw [copy_object_skip g w d hc]
        left; rfl
      · cases hg : get_object w d.key with
        | error c =>
            rw [copy_object_get_error g w d ts c hc hts hg]; left; rfl
        | ok resp =>
            cases hp : w.putFault d.key with
            | none =>
                rw [copy_object_copied g w d ts resp hc hts hg hp]
                right; exact ⟨_, rfl⟩
            | some c =>
                rw [copy_object_put_error g w d ts resp c hc hts hg hp]
                left; rfl

/-- The fault-free service: every remote call succeeds normally. -/
def freeWorld (source target : Bucket) : S3World :=
  ⟨source, target, noFault, noFault, noFault⟩

/-- The skip predicate of `copy_object`: the destination object exists
and its `ContentLength` equals the source size. -/
def size_matches (t : Bucket) (d : ObjectDescriptor) : Bool :=
  match lookupObj t d.key with
  | some o => o.size == d.size
  | none => false

theorem check_target_free (s t : Bucket) (k : String) :
    check_target_object (head_object (freeWorld s t) k) =
      Except.ok (Option.map StoredObject.size (lookupObj t k)) := by
  cases h : lookupObj t k <;>
    simp [check_target_object, head_object, freeWorld, noFault, h]

theorem copy_free_skip (g : String → Option String) (s t : Bucket)
    (d : ObjectDescriptor) (hm : size_matches t d = true) :
    copy_object g false (freeWorld s t) d =
      ⟨TransferStatus.skipped, t, [RemoteOp.head d.key]⟩ := by
  unfold size_matches at hm
  cases hl : lookupObj t d.key with
  | none => rw [hl] at hm; cases hm
  | some o =>
      rw [hl] at hm
      have hsize : o.size = d.size := by simpa using hm
      have := copy_object_skip g (freeWorld s t) d
        (by rw [check_target_free, hl]; simp [hsize])
      simpa [freeWorld] using this

theorem copy_free_copied (g : String → Option String) (s t : Bucket)
    (d : ObjectDescriptor) (so : StoredObject)
    (hm : size_matches t d = false) (hs : lookupObj s d.key = some so) :
    copy_object g false (freeWorld s t) d =
      ⟨TransferStatus.copied,
        putObj t d.key
          { size := so.body.length
            contentType :=
              some (resolve_content_type g so.contentType d.key)
            metadata := so.metadata
            body := so.body },
        [RemoteOp.head d.key, RemoteOp.get d.key, RemoteOp.put d.key]⟩ := by
  have hts : Option.map StoredObject.size (lookupObj t d.key) ≠
      some d.size := by
    unfold size_matches at hm
    cases hl : lookupObj t d.key with
    | none => simp
    | some o =>
        rw [hl] at hm
        simp only [beq_iff_eq] at hm
        simp only [ne_eq]
        intro he
        exact absurd (by simpa using he) (by simpa using hm)
  have hget : get_object (freeWorld s t) d.key = Except.ok so := by
    simp [get_object, freeWorld, noFault, hs]
  have := copy_object_copied g (freeWorld s t) d
    (Option.map StoredObject.size (lookupObj t d.key)) so
    (check_target_free s t d.key) hts hget (by simp [freeWorld, noFault])
  simpa [freeWorld] using this

/-- How many of the counters `copied`, `skipped`, `errors` one outcome
increments. -/
def outcomeCount : TransferStatus → Nat
  | TransferStatus.interrupted => 0
  | _ => 1

theorem outcomeCount_eq_one (r : TransferStatus)
    (h : r ≠ TransferStatus.interrupted) : outcomeCount r = 1 := by
  cases r <;> simp [outcomeCount] at h ⊢

theorem statsSum_record (s : SyncStats) (r : TransferStatus) :
    statsSum (record s r) = statsSum s + outcomeCount r := by
  cases r <;> simp [record, statsSum, outcomeCount] <;> omega

theorem total_record (s : SyncStats) (r : TransferStatus) :
    (record s r).total = s.total := by
  cases r <;> rfl

theorem statsSum_foldl (rs : List TransferStatus) :
    ∀ s : SyncStats,
      statsSum (rs.foldl record s) =
        statsSum s + (rs.map outcomeCount).sum := by
  induction rs with
  | nil => intro s; simp
  | cons r rs ih =>
      intro s
      simp only [List.foldl_cons, List.map_cons, List.sum_cons]
      rw [ih, statsSum_record]
      omega

theorem total_foldl (rs : List TransferStatus) :
    ∀ s : SyncStats, (rs.foldl record s).total = s.total := by
  induction rs with
  | nil => intro s; rfl
  | cons r rs ih =>
      intro s
      simp only [List.foldl_cons]
      rw [ih, total_record]

theorem outcome_sum_le (rs : List TransferStatus) :
    (rs.map outcomeCount).sum ≤ rs.length := by
  induction rs with
  | nil => simp
  | cons r rs ih =>
      simp only [List.map_cons, List.sum_cons, List.length_cons]
      have : outcomeCount r ≤ 1 := by cases r <;> simp [outcomeCount]
      omega

theorem outcome_sum_eq (rs : List TransferStatus)
    (h : ∀ r ∈ rs, r ≠ TransferStatus.interrupted) :
    (rs.map outcomeCount).sum = rs.length := by
  induction rs with
  | nil => simp
  | cons r rs ih =>
      simp only [List.map_cons, List.sum_cons, List.length_cons]
      rw [outcomeCount_eq_one r (h r (List.mem_cons_self r rs)),
        ih (fun x hx => h x (List.mem_cons_of_mem r hx))]
      omega

theorem run_transfers_statsSum (g hf gf pf : String → Option String)
    (source : Bucket) :
    ∀ (ds : List ObjectDescriptor) (t : Bucket) (s : SyncStats),
      statsSum (run_transfers g hf gf pf source ds t s).1 =
        statsSum s + ds.length := by
  intro ds
  induction ds with
  | nil => intro t s; simp [run_transfers]
  | cons d ds ih =>
      intro t s
      rw [run_transfers, ih, statsSum_record,
        outcomeCount_eq_one _ (copy_object_not_interrupted g _ d)]
      simp only [List.length_cons]
      omega

theorem run_transfers_total (g hf gf pf : String → Option String)
    (source : Bucket) :
    ∀ (ds : List ObjectDescriptor) (t : Bucket) (s : SyncStats),
      (run_transfers g hf gf pf source ds t s).1.total = s.total := by
  intro ds
  induction ds with
  | nil => intro t s; rfl
  | cons d ds ih =>
      intro t s
      rw [run_transfers, ih, total_record]

theorem size_matches_other (t : Bucket) (d : ObjectDescriptor)
    (k : String) (o : StoredObject) (h : k ≠ d.key) :
    size_matches (putObj t k o) d = size_matches t d := by
  unfold size_matches
  rw [lookupObj_putObj_other t k d.key o h]

theorem run_transfers_preserves (g : String → Option String)
    (source : Bucket) (d : ObjectDescriptor) :
    ∀ (ds : List ObjectDescriptor) (t : Bucket) (s : SyncStats),
      size_matches t d = true →
      d.key ∉ ds.map ObjectDescriptor.key →
      size_matches
        (run_transfers g noFault noFault noFault source ds t s).2 d =
        true := by
  intro ds
  induction ds with
  | nil => intro t s hm _; exact hm
  | cons d₁ ds ih =>
      intro t s hm hk
      simp only [List.map_cons, List.mem_cons, not_or] at hk
      rw [run_transfers]
      apply ih _ _ _ (List.not_mem_of_not_mem_cons (by simpa using hk))
      rcases copy_object_target_shape g ⟨source, t, noFault, noFault,
          noFault⟩ d₁ with hsh | ⟨o, hsh⟩
      · rw [hsh]; exact hm
      · rw [hsh, size_matches_other t d d₁.key o (fun he => hk.1 he.symm)]
        exact hm

theorem size_matches_after_copy (g : String → Option String)
    (source t : Bucket) (d : ObjectDescriptor)
    (hsrc : ∃ o, lookupObj source d.key = some o ∧
      o.body.length = d.size) :
    size_matches
      (copy_object g false (freeWorld source t) d).target d = true := by
  obtain ⟨so, hso, hlen⟩ := hsrc
  by_cases hm : size_matches t d = true
  · rw [copy_free_skip g source t d hm]
    exact hm
  · rw [copy_free_copied g source t d so
      (Bool.not_eq_true _ ▸ hm) hso]
    unfold size_matches
    rw [lookupObj_putObj_self]
    simpa using hlen

theorem run_transfers_post (g : String → Option String) (source : Bucket) :
    ∀ (ds : List ObjectDescriptor) (t : Bucket) (s : SyncStats),
      (∀ d ∈ ds, ∃ o, lookupObj source d.key = some o ∧
        o.body.length = d.size) →
      (ds.map ObjectDescriptor.key).Nodup →
      ∀ d ∈ ds,
        size_matches
          (run_transfers g noFault noFault noFault source ds t s).2 d =
          true := by
  intro ds
  induction ds with
  | nil => intro t s _ _ d hd; cases hd
  | cons d₁ ds ih =>
      intro t s hsrc hnodup d hd
      rw [List.map_cons] at hnodup
      have hnd := List.nodup_cons.mp hnodup
      rw [run_transfers]
      rcases List.mem_cons.mp hd with rfl | hd₂
      · apply run_transfers_preserves g source d ds _ _ _ hnd.1
        have : copy_object g false ⟨source, t, noFault, noFault, noFault⟩
            d = copy_object g false (freeWorld source t) d := rfl
        rw [this]
        exact size_matches_after_copy g source t d
          (hsrc d (List.mem_cons_self d ds))
      · exact ih _ _ (fun x hx => hsrc x (List.mem_cons_of_mem d₁ hx))
          hnd.2 d hd₂

theorem run_transfers_all_skip (g : String → Option String)
    (source : Bucket) :
    ∀ (ds : List ObjectDescriptor) (t : Bucket) (s : SyncStats),
      (∀ d ∈ ds, size_matches t d = true) →
      run_transfers g noFault noFault noFault source ds t s =
        ({ total := s.total, copied := s.copied,
           skipped := s.skipped + ds.length, errors := s.errors }, t) := by
  intro ds
  induction ds with
  | nil => intro t s _; simp [run_transfers]
  | cons d ds ih =>
      intro t s hall
      rw [run_transfers]
      have hstep : copy_object g false ⟨source, t, noFault, noFault,
          noFault⟩ d = ⟨TransferStatus.skipped, t, [RemoteOp.head d.key]⟩ :=
        copy_free_skip g source t d (hall d (List.mem_cons_self d ds))
      rw [hstep]
      rw [ih t _ (fun x hx => hall x (List.mem_cons_of_mem d hx))]
      simp [record]
      omega

/-- Claim C1, counterexample: a destination object whose size matches the
source but whose recorded content type (`text/plain`) differs from the
freshly resolved content type (`image/png`) is nevertheless `Skipped`,
not re-copied: the skip decision of `copy_object` never consults the
content type. -/
theorem c1_skip_ignores_content_type_counterexample :
    (copy_object (fun _ => none) false
        ⟨[("a.txt", ⟨5, some "image/png", [], [0, 0, 0, 0, 0]⟩)],
          [("a.txt", ⟨5, some "text/plain", [], [1, 1, 1, 1, 1]⟩)],
          noFault, noFault, noFault⟩
        ⟨"a.txt", 5⟩).status = TransferStatus.skipped ∧
      resolve_content_type (fun _ => none) (some "image/png") "a.txt" =
        "image/png" ∧
      lookupObj [("a.txt", ⟨5, some "text/plain", [], [1, 1, 1, 1, 1]⟩)]
        "a.txt" = some ⟨5, some "text/plain", [], [1, 1, 1, 1, 1]⟩ ∧
      ("image/png" : String) ≠ "text/plain" := by
  refine ⟨rfl, rfl, rfl, by decide⟩

/-- Claim C1, amended: the skip decision of `copy_object` depends on the
size alone: a transfer returns `Skipped` exactly when the interrupted
flag is clear and the destination probe reports an existing object whose
`ContentLength` equals the source size; the destination's recorded
content type plays no role. -/
theorem c1_skip_decision_size_only (g : String → Option String)
    (interrupted : Bool) (w : S3World) (d : ObjectDescriptor) :
    (copy_object g interrupted w d).status = TransferStatus.skipped ↔
      (interrupted = false ∧
        check_target_object (head_object w d.key) =
          Except.ok (some d.size)) := by
  cases interrupted with
  | true =>
      rw [copy_object_of_interrupted]
      simp
  | false =>
      constructor
      · intro h
        refine ⟨rfl, ?_⟩
        cases hc : check_target_object (head_object w d.key) with
        | error c =>
            rw [copy_object_head_error g w d c hc] at h
            simp at h
        | ok ts =>
            by_cases hts : ts = some d.size
            · subst hts
              rfl
            · cases hg : get_object w d.key with
              | error c =>
                  rw [copy_object_get_error g w d ts c hc hts hg] at h
                  simp at h
              | ok resp =>
                  cases hp : w.putFault d.key with
                  | none =>
                      rw [copy_object_copied g w d ts resp hc hts hg hp]
                        at h
                      simp at h
                  | some c =>
                      rw [copy_object_put_error g w d ts resp c hc hts
                        hg hp] at h
                      simp at h
      · rintro ⟨-, hc⟩
        rw [copy_object_skip g w d hc]

/-- Claim C2, counterexample: for an object of 50000000 bytes, far above
the 8 MiB chunk size, the `BytesIO` buffer after the read loop holds all
50000000 bytes at once — the whole object body is buffered in memory,
so peak memory per transfer is not bounded by a constant independent of
object size. -/
theorem c2_whole_body_buffered_counterexample :
    CHUNK_SIZE < 50000000 ∧
      (read_body_buffered (List.replicate 50000000 0)).length =
        50000000 := by
  refine ⟨by norm_num [CHUNK_SIZE], ?_⟩
  rw [read_body_buffered_eq, List.length_replicate]

/-- Claim C2, amended: `copy_object` reads every object — there is no
size threshold — in chunks of at most `CHUNK_SIZE` (8 MiB) bytes, but
each chunk is appended to a single in-memory buffer, and after the read
loop that buffer holds the entire object body; peak memory per transfer
therefore grows with object size instead of being bounded by a
constant. -/
theorem c2_chunked_read_fully_buffers (body : List Nat) :
    read_body_buffered body = body ∧
      ∀ i : Nat,
        ((chunks CHUNK_SIZE body).getD i []).length ≤ CHUNK_SIZE := by
  refine ⟨read_body_buffered_eq body, ?_⟩
  intro i
  by_cases h : i < (chunks CHUNK_SIZE body).length
  · rw [List.getD_eq_getElem _ _ h]
    exact chunks_sizes CHUNK_SIZE body _ (List.getElem_mem h)
  · rw [List.getD_eq_default _ _ (Nat.le_of_not_lt h)]
    exact Nat.zero_le _

/-- Claim C3: recording outcomes keeps `copied + skipped + errors` at or
below `total` whenever at most `total` results have been processed, with
equality when exactly `total` results were processed and none was
`Interrupted`; each outcome increments exactly one of the three counters
except `Interrupted`, which increments none. -/
theorem c3_counter_invariants (total : Nat)
    (results : List TransferStatus)
    (hlen : results.length ≤ total) :
    statsSum (run_stats total results) ≤ total ∧
      (run_stats total results).total = total ∧
      ((∀ r ∈ results, r ≠ TransferStatus.interrupted) →
        results.length = total →
        statsSum (run_stats total results) = total) ∧
      (∀ s, record s TransferStatus.copied =
        { s with copied := s.copied + 1 }) ∧
      (∀ s, record s TransferStatus.skipped =
        { s with skipped := s.skipped + 1 }) ∧
      (∀ s m, record s (TransferStatus.error m) =
        { s with errors := s.errors + 1 }) ∧
      (∀ s, record s TransferStatus.interrupted = s) := by
  have h1 : statsSum (run_stats total results) =
      (results.map outcomeCount).sum := by
    rw [run_stats, statsSum_foldl]
    simp [initStats, statsSum]
  refine ⟨?_, ?_, ?_, fun s => rfl, fun s => rfl, fun s m => rfl,
    fun s => rfl⟩
  · rw [h1]
    exact le_trans (outcome_sum_le results) hlen
  · rw [run_stats, total_foldl]
    rfl
  · intro hni hlen₂
    rw [h1, outcome_sum_eq results hni, hlen₂]

/-- Claim C3, witness: a run of three results, one copied, one skipped,
one errored, against `total = 3`. -/
theorem c3_counter_invariants_witness :
    statsSum (run_stats 3 [TransferStatus.copied, TransferStatus.skipped,
      TransferStatus.error "k: 500"]) ≤ 3 :=
  (c3_counter_invariants 3 [TransferStatus.copied,
    TransferStatus.skipped, TransferStatus.error "k: 500"]
    (by decide)).1

/-- Claim C4: a `404` from the destination probe is turned into the
normal `none` (copy required) answer and never raised; a probe failure
with any other code is re-raised by `check_target_object` and caught at
the object boundary in `copy_object` as an `Error` outcome that leaves
the target untouched; a read failure (`get_object`) and a write failure
(the upload) on the copy path are likewise caught and converted to an
`Error` outcome with the target untouched; every `Error` outcome is
recorded in the `errors` counter; and a run processes every descriptor
to a counted outcome regardless of injected faults, so one object's
failure never aborts its siblings. -/
theorem c4_not_found_never_raises (g hf gf pf : String → Option String)
    (w : S3World) (d : ObjectDescriptor) (code : String) (s : SyncStats)
    (source t : Bucket) (ds : List ObjectDescriptor) (ts : Option Nat)
    (resp : StoredObject)
    (hcode : code ≠ "404") :
    check_target_object (Except.error "404") = Except.ok none ∧
      check_target_object (Except.error code) = Except.error code ∧
      (w.headFault d.key = some code →
        copy_object g false w d =
          ⟨TransferStatus.error (d.key ++ ": " ++ code), w.target,
            [RemoteOp.head d.key]⟩) ∧
      (check_target_object (head_object w d.key) = Except.ok ts →
        ts ≠ some d.size → w.getFault d.key = some code →
        copy_object g false w d =
          ⟨TransferStatus.error (d.key ++ ": " ++ code), w.target,
            [RemoteOp.head d.key, RemoteOp.get d.key]⟩) ∧
      (check_target_object (head_object w d.key) = Except.ok ts →
        ts ≠ some d.size → get_object w d.key = Except.ok resp →
        w.putFault d.key = some code →
        copy_object g false w d =
          ⟨TransferStatus.error (d.key ++ ": " ++ code), w.target,
            [RemoteOp.head d.key, RemoteOp.get d.key,
              RemoteOp.put d.key]⟩) ∧
      (∀ m, record s (TransferStatus.error m) =
        { s with errors := s.errors + 1 }) ∧
      statsSum (run_transfers g hf gf pf source ds t
        (initStats ds.length)).1 = ds.length := by
  refine ⟨rfl, by simp [check_target_object, hcode], ?_, ?_, ?_,
    fun m => rfl, ?_⟩
  · intro hhf
    apply copy_object_head_error
    simp [check_target_object, head_object, hhf, hcode]
  · intro hc hts hgf
    apply copy_object_get_error g w d ts code hc hts
    simp [get_object, hgf]
  · intro hc hts hg hpf
    exact copy_object_put_error g w d ts resp code hc hts hg hpf
  · rw [run_transfers_statsSum]
    simp [initStats, statsSum]

/-- Claim C4, witness: a probe of key `k` failing with code `403`, a
source read of `k` failing with code `500`, and an upload of `k` failing
with code `500` each become an `Error` outcome with the target bucket
untouched, while a one-object run still records exactly one outcome. -/
theorem c4_not_found_never_raises_witness :
    check_target_object (Except.error "403") = Except.error "403" ∧
      copy_object noFault false
        ⟨[], [], fun _ => some "403", noFault, noFault⟩ ⟨"k", 1⟩ =
        ⟨TransferStatus.error ("k" ++ ": " ++ "403"), [],
          [RemoteOp.head "k"]⟩ ∧
      copy_object noFault false
        ⟨[], [], noFault, fun _ => some "500", noFault⟩ ⟨"k", 1⟩ =
        ⟨TransferStatus.error ("k" ++ ": " ++ "500"), [],
          [RemoteOp.head "k", RemoteOp.get "k"]⟩ ∧
      copy_object noFault false
        ⟨[("k", ⟨1, none, [], [5]⟩)], [], noFault, noFault,
          fun _ => some "500"⟩ ⟨"k", 1⟩ =
        ⟨TransferStatus.error ("k" ++ ": " ++ "500"), [],
          [RemoteOp.head "k", RemoteOp.get "k", RemoteOp.put "k"]⟩ ∧
      statsSum (run_transfers noFault
        (fun _ => some "403") noFault noFault [] [⟨"k", 1⟩] []
        (initStats 1)).1 = 1 := by
  have h₁ := c4_not_found_never_raises noFault (fun _ => some "403")
    noFault noFault ⟨[], [], fun _ => some "403", noFault, noFault⟩
    ⟨"k", 1⟩ "403" (initStats 1) [] [] [⟨"k", 1⟩] none ⟨0, none, [], []⟩
    (by decide)
  have h₂ := c4_not_found_never_raises noFault noFault noFault noFault
    ⟨[], [], noFault, fun _ => some "500", noFault⟩
    ⟨"k", 1⟩ "500" (initStats 1) [] [] [] none ⟨0, none, [], []⟩
    (by decide)
  have h₃ := c4_not_found_never_raises noFault noFault noFault noFault
    ⟨[("k", ⟨1, none, [], [5]⟩)], [], noFault, noFault,
      fun _ => some "500"⟩
    ⟨"k", 1⟩ "500" (initStats 1) [] [] [] none ⟨1, none, [], [5]⟩
    (by decide)
  exact ⟨h₁.2.1, h₁.2.2.1 rfl,
    h₂.2.2.2.1 rfl (by decide) rfl,
    h₃.2.2.2.2.1 rfl (by decide) rfl rfl,
    h₁.2.2.2.2.2.2⟩

/-- Claim C5: the first interrupt signal only sets the soft-interrupt
flag (it cancels nothing and exits nothing); a second signal while the
flag is set exits the process with the distinguished non-zero status
130; and with the flag set, `copy_object` fast-returns `Interrupted`
having performed no remote I/O and left the target untouched. -/
theorem c5_two_tier_cancellation (g : String → Option String)
    (w : S3World) (d : ObjectDescriptor) :
    signal_handler false = SignalEffect.setFlag true ∧
      signal_handler true = SignalEffect.exitProcess 130 ∧
      (130 : Nat) ≠ 0 ∧
      copy_object g true w d =
        ⟨TransferStatus.interrupted, w.target, []⟩ :=
  ⟨rfl, rfl, by decide, rfl⟩

/-- Claim C6: the resolved content type prefers the source object's own
recorded type when it is present (truthy) and not the
`binary/octet-stream` placeholder; otherwise it is the type derived from
the key's extension; otherwise the generic `application/octet-stream`
fallback. -/
theorem c6_content_type_precedence (g : String → Option String)
    (key ct t : String) :
    (ct ≠ "" → ct ≠ "binary/octet-stream" →
      resolve_content_type g (some ct) key = ct) ∧
      (g key = some t →
        resolve_content_type g none key = t ∧
        resolve_content_type g (some "") key = t ∧
        resolve_content_type g (some "binary/octet-stream") key = t) ∧
      (g key = none →
        resolve_content_type g none key = "application/octet-stream" ∧
        resolve_content_type g (some "") key =
          "application/octet-stream" ∧
        resolve_content_type g (some "binary/octet-stream") key =
          "application/octet-stream") := by
  refine ⟨?_, ?_, ?_⟩
  · intro h₁ h₂
    simp [resolve_content_type, h₁, h₂]
  · intro hg
    refine ⟨?_, ?_, ?_⟩ <;> simp [resolve_content_type, hg]
  · intro hg
    refine ⟨?_, ?_, ?_⟩ <;> simp [resolve_content_type, hg]

/-- Claim C6, witness: concrete instances of all three precedence
levels, with `x.png` mapping to `image/png` in the extension table. -/
theorem c6_content_type_precedence_witness :
    resolve_content_type
        (fun k => if k = "x.png" then some "image/png" else none)
        (some "text/html") "x.png" = "text/html" ∧
      resolve_content_type
        (fun k => if k = "x.png" then some "image/png" else none)
        (some "binary/octet-stream") "x.png" = "image/png" ∧
      resolve_content_type
        (fun k => if k = "x.png" then some "image/png" else none)
        none "zzz" = "application/octet-stream" := by
  have h₁ := c6_content_type_precedence
    (fun k => if k = "x.png" then some "image/png" else none)
    "x.png" "text/html" "image/png"
  have h₂ := c6_content_type_precedence
    (fun k => if k = "x.png" then some "image/png" else none)
    "zzz" "unused" "unused"
  exact ⟨h₁.1 (by decide) (by decide), (h₁.2.1 (by decide)).2.2,
    (h₂.2.2 (by decide)).1⟩

/-- Claim C7: running the engine a second time over an unchanged source
and the destination produced by a completed fault-free first run yields
`copied = 0` and `skipped = total`: every object the first run copied or
skipped satisfies the skip predicate in the second. -/
theorem c7_second_run_idempotent (g : String → Option String)
    (source target : Bucket) (ds : List ObjectDescriptor)
    (hnodup : (ds.map ObjectDescriptor.key).Nodup)
    (hsrc : ∀ d ∈ ds, ∃ o, lookupObj source d.key = some o ∧
      o.body.length = d.size) :
    (run_transfers g noFault noFault noFault source ds
      (run_transfers g noFault noFault noFault source ds target
        (initStats ds.length)).2
      (initStats ds.length)).1 =
      { total := ds.length, copied := 0, skipped := ds.length,
        errors := 0 } := by
  have hall := run_transfers_post g source ds target
    (initStats ds.length) hsrc hnodup
  rw [run_transfers_all_skip g source ds _ _ hall]
  simp [initStats]

/-- Claim C7, witness: a one-object inventory synced twice from scratch;
the second run skips everything. -/
theorem c7_second_run_idempotent_witness :
    (run_transfers noFault noFault noFault noFault
      [("a", ⟨1, none, [], [7]⟩)] [⟨"a", 1⟩]
      (run_transfers noFault noFault noFault noFault
        [("a", ⟨1, none, [], [7]⟩)] [⟨"a", 1⟩] []
        (initStats 1)).2
      (initStats 1)).1 =
      { total := 1, copied := 0, skipped := 1, errors := 0 } := by
  have h := c7_second_run_idempotent noFault
    [("a", ⟨1, none, [], [7]⟩)] [] [⟨"a", 1⟩] (by simp)
    (by
      intro d hd
      simp only [List.mem_singleton] at hd
      subst hd
      exact ⟨⟨1, none, [], [7]⟩, rfl, rfl⟩)
  simpa using h

/-- Claim C9: whenever `copy_object` returns `Skipped`, the only remote
call it performed is the destination metadata probe for that key, and
the destination bucket is left exactly as it was. -/
theorem c9_skipped_frame (g : String → Option String) (itr : Bool)
    (w : S3World) (d : ObjectDescriptor)
    (h : (copy_object g itr w d).status = TransferStatus.skipped) :
    (copy_object g itr w d).ops = [RemoteOp.head d.key] ∧
      (copy_object g itr w d).target = w.target := by
  cases itr with
  | true =>
      rw [copy_object_of_interrupted] at h
      simp at h
  | false =>
      cases hc : check_target_object (head_object w d.key) with
      | error c =>
          rw [copy_object_head_error g w d c hc] at h
          simp at h
      | ok ts =>
          by_cases hts : ts = some d.size
          · subst hts
            rw [copy_object_skip g w d hc]
            exact ⟨rfl, rfl⟩
          · cases hg : get_object w d.key with
            | error c =>
                rw [copy_object_get_error g w d ts c hc hts hg] at h
                simp at h
            | ok resp =>
                cases hp : w.putFault d.key with
                | none =>
                    rw [copy_object_copied g w d ts resp hc hts hg hp]
                      at h
                    simp at h
                | some c =>
                    rw [copy_object_put_error g w d ts resp c hc hts hg
                      hp] at h
                    simp at h

/-- Claim C9, witness: a matching one-object destination is probed and
nothing else happens. -/
theorem c9_skipped_frame_witness :
    (copy_object noFault false
      ⟨[], [("a", ⟨3, none, [], [9, 9, 9]⟩)], noFault, noFault,
        noFault⟩ ⟨"a", 3⟩).ops = [RemoteOp.head "a"] ∧
      (copy_object noFault false
        ⟨[], [("a", ⟨3, none, [], [9, 9, 9]⟩)], noFault, noFault,
          noFault⟩ ⟨"a", 3⟩).target =
        [("a", ⟨3, none, [], [9, 9, 9]⟩)] :=
  c9_skipped_frame noFault false
    ⟨[], [("a", ⟨3, none, [], [9, 9, 9]⟩)], noFault, noFault, noFault⟩
    ⟨"a", 3⟩ rfl

/-- Claim C10: with an empty source inventory, `sync` returns early: all
four counters stay 0 and the final summary is not printed. -/
theorem c10_empty_inventory_early_return (g : String → Option String)
    (source target : Bucket) :
    sync g source target [] =
      ({ total := 0, copied := 0, skipped := 0, errors := 0 }, target,
        false) := rfl

end S3Rsync
